import Mathlib

/-!
Shallow embedding of the USB device-emulation layer of F2ido (`src/usb.rs`).

Machine integers (`u8`, `u16`) are embedded as `Nat` with explicit `% 256`
(resp. `% 65536`) where the Rust code truncates.  Rust byte buffers
(`&mut [u8]`) are `List Nat`; a handler that writes into a buffer returns the
buffer's new contents.  Fallible Rust code (`IOR<()>`, `R<bool>`) is embedded
with the outcome type `Out` below, whose `crash` constructor records the
places where the Rust source `panic!`s, `unimplemented!()`s, fails an
`assert!`, an `unwrap()`, an out-of-bounds index, or a
`copy_from_slice` length mismatch — i.e. outcomes where no URB is completed
at all, as opposed to `ioErr`, which the endpoint callbacks in
`init_callbacks` turn into a completed URB with an error status.

The modules `binio`, `hid`, `ctaphid` and the bindgen `bindings` module are
part of the repository but not under `src/`; the definitions taken from them
are modelled from the spec and say so in their doc comments.
-/

/-- Outcome of running one of the endpoint handlers: `ok` and `ioErr` are the
`Ok`/`Err` cases of the Rust `IOR`/`R` result (both complete the URB), while
`crash` marks a Rust `panic!`/`unimplemented!`/failed `unwrap` — the process
aborts and no URB is completed. -/
inductive Out (α : Type) where
  | ok : α → Out α
  | ioErr : Out α
  | crash : Out α
deriving DecidableEq, Repr

/-- Little-endian serialization of a 16-bit field (spec §9: "serialize
explicitly in little-endian"). -/
def le16 (n : Nat) : List Nat := [n % 256, n / 256 % 256]

inductive DataTransferDirection where
  | HostToDevice
  | DeviceToHost
deriving DecidableEq, Repr

inductive RequestType where
  | Standard
  | Class
  | Vendor
  | Reserved
deriving DecidableEq, Repr

inductive RequestRecipient where
  | Device
  | Interface
  | Endpoint
  | Other
deriving DecidableEq, Repr

/-- The decoded 8-byte SETUP packet (`SetupPacket` in `usb.rs`): the three
`bmRequestType` bit fields, `bRequest`, and the little-endian 16-bit
`wValue`, `wIndex`, `wLength`. -/
structure SetupPacket where
  direction : DataTransferDirection
  type_ : RequestType
  recipient : RequestRecipient
  b_request : Nat
  w_value : Nat
  w_index : Nat
  w_length : Nat
deriving DecidableEq, Repr

structure usb_device_descriptor where
  bLength : Nat
  bDescriptorType : Nat
  bcdUSB : Nat
  bDeviceClass : Nat
  bDeviceSubClass : Nat
  bDeviceProtocol : Nat
  bMaxPacketSize0 : Nat
  idVendor : Nat
  idProduct : Nat
  bcdDevice : Nat
  iManufacturer : Nat
  iProduct : Nat
  iSerialNumber : Nat
  bNumConfigurations : Nat
deriving DecidableEq, Repr

structure usb_config_descriptor where
  bLength : Nat
  bDescriptorType : Nat
  wTotalLength : Nat
  bNumInterfaces : Nat
  bConfigurationValue : Nat
  iConfiguration : Nat
  bmAttributes : Nat
  bMaxPower : Nat
deriving DecidableEq, Repr

structure usb_interface_descriptor where
  bLength : Nat
  bDescriptorType : Nat
  bInterfaceNumber : Nat
  bAlternateSetting : Nat
  bNumEndpoints : Nat
  bInterfaceClass : Nat
  bInterfaceSubClass : Nat
  bInterfaceProtocol : Nat
  iInterface : Nat
deriving DecidableEq, Repr

structure usb_hid_descriptor where
  bLength : Nat
  bDescriptorType : Nat
  bcdHID : Nat
  bCountryCode : Nat
  bNumDescriptors : Nat
  bReportDescriptorType : Nat
  wReportDescriptorLength : Nat
deriving DecidableEq, Repr

structure usb_endpoint_descriptor where
  bLength : Nat
  bDescriptorType : Nat
  bEndpointAddress : Nat
  bmAttributes : Nat
  wMaxPacketSize : Nat
  bInterval : Nat
  bRefresh : Nat
  bSynchAddress : Nat
deriving DecidableEq, Repr

/-- Modelled from the spec: the bindgen `bindings` module (not under `src/`)
exposes the Linux USB header constants; spec §4.1 fixes the device as
class-per-interface, HID class 0x03, interrupt endpoints, 64-byte packets. -/
def USB_CLASS_PER_INTERFACE : Nat := 0

def USB_CLASS_HID : Nat := 3

def USB_CONFIG_ATT_ONE : Nat := 0x80

def USB_CONFIG_ATT_SELFPOWER : Nat := 0x40

def HID_DT_HID : Nat := 0x21

def HID_DT_REPORT : Nat := 0x22

def USB_DT_ENDPOINT_SIZE : Nat := 7

def USB_ENDPOINT_NUMBER_MASK : Nat := 0x0f

def USB_ENDPOINT_DIR_MASK : Nat := 0x80

def USB_DIR_IN : Nat := 0x80

def USB_DIR_OUT : Nat := 0

def USB_ENDPOINT_XFER_INT : Nat := 3

def USB_ENDPOINT_MAXP_MASK : Nat := 0x7ff

def LANG_ID_EN_US : Nat := 0x0409

/-- Modelled from the spec: byte layout of the 18-byte device descriptor
(`binio::write_struct` on the packed `usb_device_descriptor`, module not
under `src/`); spec §9: "Treat all USB structures as byte schemas …
serialize explicitly in little-endian." -/
def serializeDevice (d : usb_device_descriptor) : List Nat :=
  [d.bLength, d.bDescriptorType] ++ le16 d.bcdUSB ++
    [d.bDeviceClass, d.bDeviceSubClass, d.bDeviceProtocol, d.bMaxPacketSize0] ++
    le16 d.idVendor ++ le16 d.idProduct ++ le16 d.bcdDevice ++
    [d.iManufacturer, d.iProduct, d.iSerialNumber, d.bNumConfigurations]

/-- Modelled from the spec: byte layout of the 9-byte configuration
descriptor. -/
def serializeConfig (d : usb_config_descriptor) : List Nat :=
  [d.bLength, d.bDescriptorType] ++ le16 d.wTotalLength ++
    [d.bNumInterfaces, d.bConfigurationValue, d.iConfiguration, d.bmAttributes, d.bMaxPower]

/-- Modelled from the spec: byte layout of the 9-byte interface descriptor. -/
def serializeInterface (d : usb_interface_descriptor) : List Nat :=
  [d.bLength, d.bDescriptorType, d.bInterfaceNumber, d.bAlternateSetting,
    d.bNumEndpoints, d.bInterfaceClass, d.bInterfaceSubClass, d.bInterfaceProtocol,
    d.iInterface]

/-- Modelled from the spec: byte layout of the 9-byte HID descriptor. -/
def serializeHid (d : usb_hid_descriptor) : List Nat :=
  [d.bLength, d.bDescriptorType] ++ le16 d.bcdHID ++
    [d.bCountryCode, d.bNumDescriptors, d.bReportDescriptorType] ++
    le16 d.wReportDescriptorLength

/-- Modelled from the spec: byte layout of the endpoint descriptor (9 bytes
including the audio fields `bRefresh`/`bSynchAddress`; only the first
`bLength = 7` bytes are emitted, via `binio::write_struct_limited`). -/
def serializeEndpoint (d : usb_endpoint_descriptor) : List Nat :=
  [d.bLength, d.bDescriptorType, d.bEndpointAddress, d.bmAttributes] ++
    le16 d.wMaxPacketSize ++ [d.bInterval, d.bRefresh, d.bSynchAddress]

/-- Modelled from the spec (§2, §4.2): the hid module's short-item builders
(module not under `src/`), standard HID item encoding.  A value above one
byte is emitted with a two-byte data field, little-endian. -/
def usage_page (v : Nat) : List Nat :=
  if v ≤ 0xff then [0x05, v] else [0x06, v % 256, v / 256 % 256]

/-- Modelled from the spec: HID Usage item. -/
def usage (v : Nat) : List Nat := [0x09, v]

/-- Modelled from the spec: HID Collection item. -/
def collection (v : Nat) : List Nat := [0xa1, v]

/-- Modelled from the spec: HID Logical Minimum item. -/
def logical_minimum (v : Nat) : List Nat := [0x15, v]

/-- Modelled from the spec: HID Logical Maximum item (0xff does not fit a
signed byte, so it takes the two-byte form). -/
def logical_maximum (v : Nat) : List Nat :=
  if v ≤ 0x7f then [0x25, v] else [0x26, v % 256, v / 256 % 256]

/-- Modelled from the spec: HID Report Size item. -/
def report_size (v : Nat) : List Nat := [0x75, v]

/-- Modelled from the spec: HID Report Count item. -/
def report_count (v : Nat) : List Nat := [0x95, v]

/-- Modelled from the spec: HID Input item. -/
def hidInput (flags : Nat) : List Nat := [0x81, flags]

/-- Modelled from the spec: HID Output item. -/
def hidOutput (flags : Nat) : List Nat := [0x91, flags]

/-- Modelled from the spec: HID End Collection item. -/
def end_collection : List Nat := [0xc0]

/-- Modelled from the spec: hid module usage constants (FIDO usage page
0xF1D0, CTAPHID usage 0x01, FIDO data-in/data-out usages). -/
def FIDO : Nat := 0xf1d0

def CTAPHID_USAGE : Nat := 0x01

def APPLICATION : Nat := 0x01

def FIDO_USAGE_DATA_IN : Nat := 0x20

def FIDO_USAGE_DATA_OUT : Nat := 0x21

def HID_DATA : Nat := 0

def HID_VARIABLE : Nat := 2

def HID_ABSOLUTE : Nat := 0

/-- Modelled from the spec: the `ctaphid::Parser` state (module not under
`src/`) as far as `usb.rs` touches it: a receive queue of raw EP2 OUT
packets and a send queue of ready 64-byte reply frames (spec §4.2: "The
framer holds a send queue of frames; EP1 IN drains one frame per URB"). -/
structure ParserSt where
  recv_queue : List (List Nat)
  send_queue : List (List Nat)
deriving DecidableEq, Repr

/-- The USB device state (`Device` in `usb.rs`): the static descriptor
table, HID report descriptor bytes, string table, and the CTAPHID parser. -/
structure Device where
  device_descriptor : usb_device_descriptor
  config_descriptor : usb_config_descriptor
  interface_descriptor : usb_interface_descriptor
  hid_descriptor : usb_hid_descriptor
  hid_report_descriptor : List Nat
  endpoint_descriptors : List usb_endpoint_descriptor
  strings : List String
  parser : ParserSt
deriving DecidableEq, Repr

/-- USB Request Block (`URB` in `usb.rs`), minus the completion callback and
context, which only route the completed URB back to the transport. -/
structure URB where
  endpoint : Nat
  setup : SetupPacket
  transfer_buffer : List Nat
  status : Option (Out Bool)
deriving DecidableEq, Repr

/-- The fixed HID report descriptor built at the top of `Device::new`
(`usb.rs` lines 183–206): usage page FIDO 0xF1D0, usage CTAPHID 0x01, one
64-byte input and one 64-byte output report. -/
def hidReportDescriptor : List Nat :=
  List.flatten
    [usage_page FIDO,
      usage CTAPHID_USAGE,
      collection APPLICATION,
      usage FIDO_USAGE_DATA_IN,
      logical_minimum 0,
      logical_maximum 0xff,
      report_size 8,
      report_count 64,
      hidInput (HID_DATA ||| HID_VARIABLE ||| HID_ABSOLUTE),
      usage FIDO_USAGE_DATA_OUT,
      logical_minimum 0,
      logical_maximum 0xff,
      report_size 8,
      report_count 64,
      hidOutput (HID_DATA ||| HID_VARIABLE ||| HID_ABSOLUTE),
      end_collection]

/-- `Device::new` (`usb.rs` lines 182–307).  The `token` and `prompt`
arguments only seed the CTAPHID parser, whose queues start empty. -/
def Device.new : Device where
  device_descriptor :=
    { bLength := 18
      bDescriptorType := 1
      bcdUSB := 0x0110
      bDeviceClass := USB_CLASS_PER_INTERFACE
      bDeviceSubClass := 0
      bDeviceProtocol := 0
      bMaxPacketSize0 := 64
      idVendor := 0
      idProduct := 0
      bcdDevice := 0x001
      iManufacturer := 1
      iProduct := 2
      iSerialNumber := 3
      bNumConfigurations := 1 }
  config_descriptor :=
    { bLength := 9
      bDescriptorType := 2
      wTotalLength := 9 + 9 + 9 + 2 * USB_DT_ENDPOINT_SIZE
      bNumInterfaces := 1
      bConfigurationValue := 0
      iConfiguration := 4
      bmAttributes := USB_CONFIG_ATT_ONE ||| USB_CONFIG_ATT_SELFPOWER
      bMaxPower := 0 }
  interface_descriptor :=
    { bLength := 9
      bDescriptorType := 4
      bInterfaceNumber := 0
      bAlternateSetting := 0
      bNumEndpoints := 2
      bInterfaceClass := USB_CLASS_HID
      bInterfaceSubClass := 0
      bInterfaceProtocol := 0
      iInterface := 5 }
  hid_descriptor :=
    { bLength := 9
      bDescriptorType := HID_DT_HID
      bcdHID := 0x101
      bCountryCode := 0
      bNumDescriptors := 1
      bReportDescriptorType := HID_DT_REPORT
      wReportDescriptorLength := hidReportDescriptor.length }
  hid_report_descriptor := hidReportDescriptor
  endpoint_descriptors :=
    [{ bLength := USB_DT_ENDPOINT_SIZE
       bDescriptorType := 5
       bEndpointAddress := (1 &&& USB_ENDPOINT_NUMBER_MASK) ||| (USB_DIR_IN &&& USB_ENDPOINT_DIR_MASK)
       bmAttributes := USB_ENDPOINT_XFER_INT
       wMaxPacketSize := 64 &&& USB_ENDPOINT_MAXP_MASK
       bInterval := 255
       bRefresh := 0
       bSynchAddress := 0 },
     { bLength := USB_DT_ENDPOINT_SIZE
       bDescriptorType := 5
       bEndpointAddress := (2 &&& USB_ENDPOINT_NUMBER_MASK) ||| (USB_DIR_OUT &&& USB_ENDPOINT_DIR_MASK)
       bmAttributes := USB_ENDPOINT_XFER_INT
       wMaxPacketSize := 64 &&& USB_ENDPOINT_MAXP_MASK
       bInterval := 255
       bRefresh := 0
       bSynchAddress := 0 }]
  strings :=
    ["string0", "Fakecompany", "Softproduct", "v0", "Default Config", "The Interface"]
  parser := { recv_queue := [], send_queue := [] }

/-- A `std::io::Cursor<&mut [u8]>`: the underlying fixed-size buffer and the
write position. -/
structure Cursor where
  buf : List Nat
  pos : Nat
deriving DecidableEq, Repr

/-- Writing through the cursor: bytes beyond the end of the underlying
buffer are discarded, the position advances by the number written. -/
def writeBytes (c : Cursor) (bs : List Nat) : Cursor :=
  let w := min bs.length (c.buf.length - c.pos)
  { buf := c.buf.take c.pos ++ bs.take w ++ c.buf.drop (c.pos + w)
    pos := c.pos + w }

/-- Modelled from the spec: `binio::write_struct` (module not under `src/`)
serializes the packed struct through the cursor; spec §4.1 has descriptor
writes "truncating silently when the buffer fills", so a full buffer is
success, not an error. -/
def write_struct (c : Cursor) (bs : List Nat) : Cursor := writeBytes c bs

/-- `Write::write_all` on a cursor: fails with an I/O error when the bytes do
not all fit (after writing the part that does fit, which we do not track on
the error path). -/
def writeAll (c : Cursor) (bs : List Nat) : Out Cursor :=
  if bs.length ≤ c.buf.length - c.pos then .ok (writeBytes c bs) else .ioErr

/-- `has_room` from `Device::get_descriptor`. -/
def has_room (c : Cursor) : Bool := c.pos < c.buf.length

/-- UTF-16 code units of one character (Rust `char::encode_utf16`). -/
def utf16Units (c : Char) : List Nat :=
  let n := c.toNat
  if n < 0x10000 then [n]
  else [0xd800 + (n - 0x10000) / 0x400, 0xdc00 + (n - 0x10000) % 0x400]

/-- UTF-16 code units of a string (`str::encode_utf16`). -/
def utf16 (s : String) : List Nat := s.data.flatMap utf16Units

/-- UTF-16LE byte serialization of a string, as built in
`Device::get_string_descriptor` (`u.to_le_bytes()` pushed low byte first). -/
def utf16le (s : String) : List Nat :=
  (utf16 s).flatMap fun u => [u % 256, u / 256 % 256]

/-- `Device::get_lang_descriptor` (`usb.rs` lines 374–381): writes the
4-byte `usb_string_descriptor` listing language 0x0409. -/
def Device.get_lang_descriptor (_d : Device) (sink : Cursor) : Cursor :=
  write_struct sink ([4, 3] ++ le16 LANG_ID_EN_US)

/-- `Device::get_string_descriptor` (`usb.rs` lines 383–402): `crash` on
index 0 (failed `assert!`) and on an out-of-range index (Rust slice-index
panic); otherwise writes `{2 + 2·len, DT_String}` then the UTF-16LE bytes
via `write_all`. -/
def Device.get_string_descriptor (d : Device) (index : Nat) (sink : Cursor) : Out Cursor :=
  if index = 0 then .crash
  else if h : index < d.strings.length then
    let text := d.strings.get ⟨index, h⟩
    let utf16_len := (utf16 text).length
    match writeAll sink [(2 + utf16_len * 2 % 256) % 256, 3] with
    | .ok c2 => writeAll c2 (utf16le text)
    | .ioErr => .ioErr
    | .crash => .crash
  else .crash

/-- `Device::get_descriptor` (`usb.rs` lines 404–437).  `wValue` splits into
descriptor type (high byte) and index (low byte); `DT::from_primitive`'s
`unwrap` crashes outside 1..=8, and the final match arm is a `panic!`. -/
def Device.get_descriptor (d : Device) (req : SetupPacket) (out : List Nat) : Out (List Nat) :=
  let index := req.w_value % 256
  let ty := req.w_value / 256 % 256
  let lang := req.w_index
  if ty < 1 ∨ 8 < ty then .crash
  else if ty = 1 ∧ index = 0 ∧ lang = 0 then
    .ok (write_struct ⟨out, 0⟩ (serializeDevice d.device_descriptor)).buf
  else if ty = 2 ∧ index = 0 ∧ lang = 0 then
    let c1 := write_struct ⟨out, 0⟩ (serializeConfig d.config_descriptor)
    if has_room c1 then
      let c2 := write_struct c1 (serializeInterface d.interface_descriptor)
      let c3 := write_struct c2 (serializeHid d.hid_descriptor)
      let c4 := d.endpoint_descriptors.foldl
        (fun c epd => write_struct c ((serializeEndpoint epd).take epd.bLength)) c3
      .ok c4.buf
    else .ok c1.buf
  else if ty = 3 ∧ index = 0 ∧ lang = 0 then
    .ok (d.get_lang_descriptor ⟨out, 0⟩).buf
  else if ty = 3 ∧ lang = LANG_ID_EN_US then
    match d.get_string_descriptor index ⟨out, 0⟩ with
    | .ok c => .ok c.buf
    | .ioErr => .ioErr
    | .crash => .crash
  else .crash

/-- `Device::get_interface_descriptor` (`usb.rs` lines 439–450): for
`wValue` high byte `HID_DT_REPORT` the report descriptor is written verbatim
with `write_all` on the bare `&mut [u8]`; any other type is a `panic!`. -/
def Device.get_interface_descriptor (d : Device) (req : SetupPacket) (out : List Nat) :
    Out (List Nat) :=
  let desctype := req.w_value / 256 % 256
  if desctype = HID_DT_REPORT then
    if d.hid_report_descriptor.length ≤ out.length then
      .ok (d.hid_report_descriptor ++ out.drop d.hid_report_descriptor.length)
    else .ioErr
  else .crash

/-- `Device::ep0_dev2host` (`usb.rs` lines 452–469).  Unlisted standard
requests hit `unimplemented!()`, unknown `bRequest` values crash in
`StandardRequest::from_primitive(..).unwrap()`, non-(Standard,
Device/Interface) request types hit the final `panic!`; `GetStatus` answers
via `copy_from_slice`, which panics unless the buffer is exactly 2 bytes. -/
def Device.ep0_dev2host (d : Device) (req : SetupPacket) (sink : List Nat) : Out (List Nat) :=
  match req.direction, req.type_, req.recipient with
  | .DeviceToHost, .Standard, .Device =>
    if req.b_request = 6 then d.get_descriptor req sink
    else if req.b_request = 0 ∧ req.w_value = 0 ∧ req.w_index = 0 ∧ req.w_length = 2 then
      if sink.length = 2 then .ok [1, 0] else .crash
    else .crash
  | .DeviceToHost, .Standard, .Interface =>
    if req.b_request = 6 then d.get_interface_descriptor req sink
    else .crash
  | _, _, _ => .crash

/-- `Device::ep0_host2dev` (`usb.rs` lines 471–483): `SetConfiguration`
with all-zero args and class `SetIdle` with all-zero args are no-op
successes; everything else is `unimplemented!()` or a failed `unwrap`. -/
def Device.ep0_host2dev (_d : Device) (req : SetupPacket) : Out Unit :=
  match req.direction, req.type_, req.recipient with
  | .HostToDevice, .Standard, .Device =>
    if req.b_request = 9 ∧ req.w_value = 0 ∧ req.w_index = 0 ∧ req.w_length = 0 then .ok ()
    else .crash
  | .HostToDevice, .Class, .Interface =>
    if req.b_request = 0xa ∧ req.w_value = 0 ∧ req.w_index = 0 ∧ req.w_length = 0 then .ok ()
    else .crash
  | _, _, _ => .crash

/-- The EP0 Host2Dev endpoint callback registered in `Device::init_callbacks`
(`usb.rs` lines 328–340): runs `ep0_host2dev` on the event-loop state (an
immutable borrow, so the state passes through unchanged) and completes the
URB with `Ok(true)` or the error. -/
def ep0_h2d_handler (st : Device) (u : URB) : Out (Device × URB) :=
  match st.ep0_host2dev u.setup with
  | .ok () => .ok (st, { u with status := some (.ok true) })
  | .ioErr => .ok (st, { u with status := some .ioErr })
  | .crash => .crash

/-- Modelled from the spec: `ctaphid::Parser::parse` (module not under
`src/`) consumes the oldest packet of the receive queue and hands it to
CTAPHID command dispatch (spec §4.2), which may extend the send queue with
reply frames; the dispatch itself is abstracted as the `dispatch`
parameter.  `ep1_drain` is the `while !recv_queue.is_empty { parse()? }`
loop at the top of `Device::ep1_dev2host`. -/
def ep1_drain (dispatch : List Nat → List (List Nat) → Out (List (List Nat))) :
    List (List Nat) → List (List Nat) → Out (List (List Nat))
  | [], sq => .ok sq
  | pkt :: rest, sq =>
    match dispatch pkt sq with
    | .ok sq2 => ep1_drain dispatch rest sq2
    | .ioErr => .ioErr
    | .crash => .crash

/-- Modelled from the spec: `ctaphid::Parser::unparse` (module not under
`src/`) pops the oldest ready frame off the send queue and writes it into
the URB transfer buffer ("EP1 IN drains one frame per URB", spec §4.2). -/
def Parser.unparse (p : ParserSt) (buf : List Nat) : Out (ParserSt × List Nat) :=
  match p.send_queue with
  | [] => .ioErr
  | f :: rest =>
    if f.length ≤ buf.length then
      .ok ({ p with send_queue := rest }, f ++ buf.drop f.length)
    else .ioErr

/-- `Device::ep1_dev2host` (`usb.rs` lines 485–496): parse every queued
receive packet, then either emit one frame and return `Ok(true)` or return
`Ok(false)` on an empty send queue. -/
def Device.ep1_dev2host (dispatch : List Nat → List (List Nat) → Out (List (List Nat)))
    (d : Device) (buf : List Nat) : Out (Bool × Device × List Nat) :=
  match ep1_drain dispatch d.parser.recv_queue d.parser.send_queue with
  | .ioErr => .ioErr
  | .crash => .crash
  | .ok sq =>
    match sq with
    | [] => .ok (false, { d with parser := { recv_queue := [], send_queue := [] } }, buf)
    | f :: rest =>
      match Parser.unparse { recv_queue := [], send_queue := f :: rest } buf with
      | .ok (p2, buf2) => .ok (true, { d with parser := p2 }, buf2)
      | .ioErr => .ioErr
      | .crash => .crash

/-- `Device::ep2_host2dev` (`usb.rs` lines 498–502): push the raw packet
onto the back of the receive queue, return `Ok(true)`. -/
def Device.ep2_host2dev (d : Device) (data : List Nat) : Out Bool × Device :=
  (.ok true,
    { d with parser := { d.parser with recv_queue := d.parser.recv_queue ++ [data] } })

/-- The full configuration GetDescriptor reply: configuration, interface and
HID descriptors followed by the two 7-byte endpoint descriptors, 41 bytes. -/
def cfgBundle : List Nat :=
  [9, 2, 41, 0, 1, 0, 4, 192, 0,
   9, 4, 0, 0, 2, 3, 0, 0, 5,
   9, 33, 1, 1, 0, 1, 34, 34, 0,
   7, 5, 129, 3, 64, 0, 255,
   7, 5, 2, 3, 64, 0, 255]

/-- A concrete CTAPHID dispatch function for instantiating `ep1_dev2host`:
echo each packet back as one reply frame. -/
def echoDispatch : List Nat → List (List Nat) → Out (List (List Nat)) :=
  fun pkt sq => .ok (sq ++ [pkt])

/-- A concrete device state with one packet pending on the receive queue. -/
def pendingDev : Device :=
  { Device.new with parser := { recv_queue := [[7, 8]], send_queue := [] } }

/-- Writing `bs` at position `p` when everything fits: the bytes land at
`p..p + bs.length` and the position advances past them. -/
theorem writeBytes_of_le (buf : List Nat) (p : Nat) (bs : List Nat)
    (h : p + bs.length ≤ buf.length) :
    writeBytes ⟨buf, p⟩ bs
      = ⟨buf.take p ++ bs ++ buf.drop (p + bs.length), p + bs.length⟩ := by
  have hw : min bs.length (buf.length - p) = bs.length := by omega
  simp [writeBytes, hw]

/-- Writing through a cursor never changes the length of the underlying
buffer, and keeps the position within it. -/
theorem writeBytes_buf_length (c : Cursor) (bs : List Nat) (hp : c.pos ≤ c.buf.length) :
    (writeBytes c bs).buf.length = c.buf.length ∧ (writeBytes c bs).pos ≤ c.buf.length := by
  simp only [writeBytes, List.length_append, List.length_take, List.length_drop]
  omega

/-- C1: the spec requires unsupported EP0 request forms to be answered with
an endpoint stall (URB completed with a nonzero status) and the engine never
to crash; the source instead `panic!`s.  Evaluated at two failing inputs: a
GetDescriptor for the DeviceQualifier descriptor (SETUP
`80 06 00 06 00 00 0A 00`, a request real hosts send) hits the
`panic!("Unsupported descriptor: ..")` arm, and a vendor request hits
`panic!("Unsupported request: ..")`: the embedding yields `crash`, not a
completed URB with an error status. -/
theorem C1_unsupported_requests_crash :
    Device.ep0_dev2host Device.new
        ⟨.DeviceToHost, .Standard, .Device, 6, 0x0600, 0, 10⟩ (List.replicate 10 0)
      = .crash
    ∧ Device.ep0_dev2host Device.new ⟨.DeviceToHost, .Vendor, .Device, 0, 0, 0, 0⟩ []
      = .crash := by
  exact ⟨rfl, rfl⟩

/-- C2: the Device GetDescriptor request (SETUP `80 06 00 01 00 00 12 00`)
with an 18-byte buffer succeeds and returns exactly the 18-byte device
descriptor: bLength 18, bDescriptorType 1, bcdUSB 0x0110 little-endian,
bDeviceClass 0, bMaxPacketSize0 64, bNumConfigurations 1. -/
theorem C2_device_descriptor :
    Device.ep0_dev2host Device.new
        ⟨.DeviceToHost, .Standard, .Device, 6, 0x0100, 0, 0x12⟩ (List.replicate 18 0)
      = .ok [18, 1, 0x10, 0x01, 0, 0, 0, 64, 0, 0, 0, 0, 1, 0, 1, 2, 3, 1]
    ∧ serializeDevice Device.new.device_descriptor
      = [18, 1, 0x10, 0x01, 0, 0, 0, 64, 0, 0, 0, 0, 1, 0, 1, 2, 3, 1]
    ∧ (serializeDevice Device.new.device_descriptor).length = 18
    ∧ Device.new.device_descriptor.bLength = 18
    ∧ Device.new.device_descriptor.bDescriptorType = 1
    ∧ Device.new.device_descriptor.bcdUSB = 0x0110
    ∧ Device.new.device_descriptor.bDeviceClass = 0
    ∧ Device.new.device_descriptor.bMaxPacketSize0 = 64
    ∧ Device.new.device_descriptor.bNumConfigurations = 1 := by
  refine ⟨by decide, by decide, by decide, rfl, rfl, rfl, rfl, rfl, rfl⟩

/-- C3: `wTotalLength` of the configuration descriptor built in
`Device::new` equals the sum of the `bLength` fields of the configuration,
interface, HID and the two endpoint descriptors (41 bytes), and does not
include the HID report descriptor's (nonzero) length. -/
theorem C3_wTotalLength :
    Device.new.config_descriptor.wTotalLength
      = Device.new.config_descriptor.bLength
        + Device.new.interface_descriptor.bLength
        + Device.new.hid_descriptor.bLength
        + (Device.new.endpoint_descriptors.map usb_endpoint_descriptor.bLength).sum
    ∧ Device.new.config_descriptor.wTotalLength = 41
    ∧ Device.new.hid_report_descriptor.length ≠ 0
    ∧ Device.new.config_descriptor.wTotalLength
      ≠ Device.new.config_descriptor.bLength
        + Device.new.interface_descriptor.bLength
        + Device.new.hid_descriptor.bLength
        + (Device.new.endpoint_descriptors.map usb_endpoint_descriptor.bLength).sum
        + Device.new.hid_report_descriptor.length := by
  refine ⟨by decide, by decide, by decide, by decide⟩

/-- C8: GetStatus to the device with `(wValue, wIndex, wLength) = (0, 0, 2)`
and a 2-byte buffer succeeds and the buffer holds exactly `{0x01, 0x00}`
(self-powered). -/
theorem C8_get_status (buf : List Nat) (h : buf.length = 2) :
    Device.ep0_dev2host Device.new ⟨.DeviceToHost, .Standard, .Device, 0, 0, 0, 2⟩ buf
      = .ok [1, 0] := by
  simp [Device.ep0_dev2host, h]

/-- C8 witness: the theorem applied to the concrete 2-byte buffer `[0, 0]`. -/
theorem C8_get_status_witness :
    ([0, 0] : List Nat).length = 2
    ∧ Device.ep0_dev2host Device.new ⟨.DeviceToHost, .Standard, .Device, 0, 0, 0, 2⟩ [0, 0]
      = .ok [1, 0] :=
  ⟨by decide, C8_get_status [0, 0] (by decide)⟩

/-- C9: the EP0 OUT handler completes SetConfiguration with all-zero args
and class SetIdle with `(0, 0, 0)` as no-op successes, and — `ep0_host2dev`
taking the device by immutable borrow — the event-loop state comes back
unchanged from the handler. -/
theorem C9_host2dev_noop (d : Device) (e : Nat) (tb : List Nat) (st : Option (Out Bool)) :
    ep0_h2d_handler d ⟨e, ⟨.HostToDevice, .Standard, .Device, 9, 0, 0, 0⟩, tb, st⟩
      = .ok (d, ⟨e, ⟨.HostToDevice, .Standard, .Device, 9, 0, 0, 0⟩, tb, some (.ok true)⟩)
    ∧ ep0_h2d_handler d ⟨e, ⟨.HostToDevice, .Class, .Interface, 0xa, 0, 0, 0⟩, tb, st⟩
      = .ok (d, ⟨e, ⟨.HostToDevice, .Class, .Interface, 0xa, 0, 0, 0⟩, tb, some (.ok true)⟩)
    ∧ d.ep0_host2dev ⟨.HostToDevice, .Standard, .Device, 9, 0, 0, 0⟩ = .ok ()
    ∧ d.ep0_host2dev ⟨.HostToDevice, .Class, .Interface, 0xa, 0, 0, 0⟩ = .ok () := by
  exact ⟨rfl, rfl, rfl, rfl⟩

/-- C10: EP2 OUT accepts a packet of any length, returns `Ok(true)`, and its
only effect is to append one copy of the packet to the back of the receive
queue: the send queue, descriptor table, report descriptor and string table
are untouched. -/
theorem C10_ep2_host2dev (d : Device) (data : List Nat) :
    (d.ep2_host2dev data).1 = .ok true
    ∧ (d.ep2_host2dev data).2.parser.recv_queue = d.parser.recv_queue ++ [data]
    ∧ (d.ep2_host2dev data).2.parser.send_queue = d.parser.send_queue
    ∧ (d.ep2_host2dev data).2.device_descriptor = d.device_descriptor
    ∧ (d.ep2_host2dev data).2.config_descriptor = d.config_descriptor
    ∧ (d.ep2_host2dev data).2.interface_descriptor = d.interface_descriptor
    ∧ (d.ep2_host2dev data).2.hid_descriptor = d.hid_descriptor
    ∧ (d.ep2_host2dev data).2.hid_report_descriptor = d.hid_report_descriptor
    ∧ (d.ep2_host2dev data).2.endpoint_descriptors = d.endpoint_descriptors
    ∧ (d.ep2_host2dev data).2.strings = d.strings := by
  exact ⟨rfl, rfl, rfl, rfl, rfl, rfl, rfl, rfl, rfl, rfl⟩

/-- Two back-to-back cursor writes from position 0 concatenate when both
fit. -/
theorem writeBytes_writeBytes (buf bs1 bs2 : List Nat)
    (h : bs1.length + bs2.length ≤ buf.length) :
    writeBytes (writeBytes ⟨buf, 0⟩ bs1) bs2
      = ⟨bs1 ++ bs2 ++ buf.drop (bs1.length + bs2.length), bs1.length + bs2.length⟩ := by
  rw [writeBytes_of_le buf 0 bs1 (by omega)]
  simp only [List.take_zero, List.nil_append, Nat.zero_add]
  rw [writeBytes_of_le (bs1 ++ buf.drop bs1.length) bs1.length bs2
      (by simp only [List.length_append, List.length_drop]; omega)]
  congr 1
  rw [List.take_left, ← List.drop_drop, List.drop_left, List.drop_drop, Nat.add_comm]

/-- `writeAll` succeeds, performing the write, whenever the bytes fit. -/
theorem writeAll_of_le (c : Cursor) (bs : List Nat) (h : c.pos + bs.length ≤ c.buf.length) :
    writeAll c bs = .ok (writeBytes c bs) := by
  unfold writeAll
  rw [if_pos (show bs.length ≤ c.buf.length - c.pos by omega)]

set_option maxRecDepth 8000 in
/-- On a Configuration GetDescriptor request the EP0 engine runs exactly the
cursor-write chain of `Device::get_descriptor`: the configuration descriptor,
then — if the buffer is not already full — the interface, HID and two
truncated endpoint descriptors. -/
theorem get_descriptor_config (out : List Nat) (wlen : Nat) :
    Device.ep0_dev2host Device.new ⟨.DeviceToHost, .Standard, .Device, 6, 0x0200, 0, wlen⟩ out
      = if has_room (writeBytes ⟨out, 0⟩ [9, 2, 41, 0, 1, 0, 4, 192, 0]) then
          .ok (writeBytes (writeBytes (writeBytes (writeBytes
                (writeBytes ⟨out, 0⟩ [9, 2, 41, 0, 1, 0, 4, 192, 0])
                [9, 4, 0, 0, 2, 3, 0, 0, 5]) [9, 33, 1, 1, 0, 1, 34, 34, 0])
                [7, 5, 129, 3, 64, 0, 255]) [7, 5, 2, 3, 64, 0, 255]).buf
        else .ok (writeBytes ⟨out, 0⟩ [9, 2, 41, 0, 1, 0, 4, 192, 0]).buf := by
  have e1 : (128 ||| 64 : Nat) = 192 := rfl
  have e2 : (1 ||| 128 : Nat) = 129 := rfl
  have e3 : (2 &&& 15 : Nat) = 2 := rfl
  have e4 : (64 &&& 2047 : Nat) = 64 := rfl
  show Device.get_descriptor Device.new
      ⟨.DeviceToHost, .Standard, .Device, 6, 0x0200, 0, wlen⟩ out = _
  unfold Device.get_descriptor
  norm_num [write_struct, Device.new, serializeConfig, serializeInterface, serializeHid,
    serializeEndpoint, le16, hidReportDescriptor, List.foldl, List.take,
    USB_CLASS_PER_INTERFACE, USB_CLASS_HID, USB_CONFIG_ATT_ONE, USB_CONFIG_ATT_SELFPOWER,
    HID_DT_HID, HID_DT_REPORT, USB_DT_ENDPOINT_SIZE, USB_ENDPOINT_NUMBER_MASK,
    USB_ENDPOINT_DIR_MASK, USB_DIR_IN, USB_DIR_OUT, USB_ENDPOINT_XFER_INT,
    USB_ENDPOINT_MAXP_MASK, usage_page, usage, collection, logical_minimum, logical_maximum,
    report_size, report_count, hidInput, hidOutput, end_collection, FIDO, CTAPHID_USAGE,
    APPLICATION, FIDO_USAGE_DATA_IN, FIDO_USAGE_DATA_OUT, HID_DATA, HID_VARIABLE,
    HID_ABSOLUTE, e1, e2, e3, e4]

set_option maxRecDepth 100000 in
/-- C4: every Configuration GetDescriptor request succeeds with a reply
exactly filling the caller-supplied buffer (silent truncation, never an
error); with a 9-byte buffer the reply is exactly the 9-byte configuration
descriptor (wTotalLength included), and with a 255-byte buffer the reply is
the whole 41-byte bundle — configuration, interface, HID and the two
endpoint descriptors written sequentially. -/
theorem C4_config_descriptor_truncation :
    (∀ (out : List Nat) (wlen : Nat), ∃ res,
        Device.ep0_dev2host Device.new
            ⟨.DeviceToHost, .Standard, .Device, 6, 0x0200, 0, wlen⟩ out
          = .ok res ∧ res.length = out.length)
    ∧ Device.ep0_dev2host Device.new
          ⟨.DeviceToHost, .Standard, .Device, 6, 0x0200, 0, 9⟩ (List.replicate 9 0)
        = .ok (serializeConfig Device.new.config_descriptor)
    ∧ serializeConfig Device.new.config_descriptor = [9, 2, 41, 0, 1, 0, 4, 192, 0]
    ∧ serializeConfig Device.new.config_descriptor
        ++ serializeInterface Device.new.interface_descriptor
        ++ serializeHid Device.new.hid_descriptor
        ++ (Device.new.endpoint_descriptors.map
              (fun e => (serializeEndpoint e).take e.bLength)).flatten
      = cfgBundle
    ∧ Device.ep0_dev2host Device.new
          ⟨.DeviceToHost, .Standard, .Device, 6, 0x0200, 0, 0xff⟩ (List.replicate 255 0)
        = .ok (cfgBundle ++ List.replicate 214 0) := by
  refine ⟨?_, by decide, by decide, by decide, by decide⟩
  intro out wlen
  rw [get_descriptor_config]
  obtain ⟨hb1, hp1⟩ := writeBytes_buf_length ⟨out, 0⟩ [9, 2, 41, 0, 1, 0, 4, 192, 0]
    (Nat.zero_le _)
  set c1 := writeBytes ⟨out, 0⟩ [9, 2, 41, 0, 1, 0, 4, 192, 0] with hc1
  have hb1' : c1.buf.length = out.length := hb1
  have hp1' : c1.pos ≤ out.length := hp1
  obtain ⟨hb2, hp2⟩ := writeBytes_buf_length c1 [9, 4, 0, 0, 2, 3, 0, 0, 5] (by omega)
  set c2 := writeBytes c1 [9, 4, 0, 0, 2, 3, 0, 0, 5] with hc2
  obtain ⟨hb3, hp3⟩ := writeBytes_buf_length c2 [9, 33, 1, 1, 0, 1, 34, 34, 0] (by omega)
  set c3 := writeBytes c2 [9, 33, 1, 1, 0, 1, 34, 34, 0] with hc3
  obtain ⟨hb4, hp4⟩ := writeBytes_buf_length c3 [7, 5, 129, 3, 64, 0, 255] (by omega)
  set c4 := writeBytes c3 [7, 5, 129, 3, 64, 0, 255] with hc4
  obtain ⟨hb5, hp5⟩ := writeBytes_buf_length c4 [7, 5, 2, 3, 64, 0, 255] (by omega)
  set c5 := writeBytes c4 [7, 5, 2, 3, 64, 0, 255] with hc5
  by_cases hroom : has_room c1 = true
  · rw [if_pos hroom]
    exact ⟨c5.buf, rfl, by omega⟩
  · rw [if_neg hroom]
    exact ⟨c1.buf, rfl, by omega⟩

/-- `get_string_descriptor` on a valid index, with room for the whole
descriptor: writes the `{2 + 2·len, DT_String}` header followed by the
UTF-16LE bytes of the table entry. -/
theorem get_string_descriptor_ok (d : Device) (i : Nat) (buf : List Nat)
    (h0 : 1 ≤ i) (hi : i < d.strings.length)
    (hroom : 2 + (utf16le (d.strings.get ⟨i, hi⟩)).length ≤ buf.length) :
    d.get_string_descriptor i ⟨buf, 0⟩
      = .ok ⟨[(2 + (utf16 (d.strings.get ⟨i, hi⟩)).length * 2 % 256) % 256, 3]
              ++ utf16le (d.strings.get ⟨i, hi⟩)
              ++ buf.drop (2 + (utf16le (d.strings.get ⟨i, hi⟩)).length),
             2 + (utf16le (d.strings.get ⟨i, hi⟩)).length⟩ := by
  have hne : ¬ i = 0 := by omega
  unfold Device.get_string_descriptor
  rw [if_neg hne, dif_pos hi]
  show (match writeAll ⟨buf, 0⟩
        [(2 + (utf16 (d.strings.get ⟨i, hi⟩)).length * 2 % 256) % 256, 3] with
      | Out.ok c2 => writeAll c2 (utf16le (d.strings.get ⟨i, hi⟩))
      | Out.ioErr => Out.ioErr
      | Out.crash => Out.crash) = _
  have hw1 : writeAll (⟨buf, 0⟩ : Cursor)
      [(2 + (utf16 (d.strings.get ⟨i, hi⟩)).length * 2 % 256) % 256, 3]
      = .ok (writeBytes ⟨buf, 0⟩
          [(2 + (utf16 (d.strings.get ⟨i, hi⟩)).length * 2 % 256) % 256, 3]) := by
    refine writeAll_of_le _ _ ?_
    simp only [List.length_cons, List.length_nil]
    omega
  have hw2 : writeAll
      (writeBytes ⟨buf, 0⟩
        [(2 + (utf16 (d.strings.get ⟨i, hi⟩)).length * 2 % 256) % 256, 3])
      (utf16le (d.strings.get ⟨i, hi⟩))
      = .ok (writeBytes
          (writeBytes ⟨buf, 0⟩
            [(2 + (utf16 (d.strings.get ⟨i, hi⟩)).length * 2 % 256) % 256, 3])
          (utf16le (d.strings.get ⟨i, hi⟩))) := by
    refine writeAll_of_le _ _ ?_
    obtain ⟨hb, hp⟩ := writeBytes_buf_length (⟨buf, 0⟩ : Cursor)
      [(2 + (utf16 (d.strings.get ⟨i, hi⟩)).length * 2 % 256) % 256, 3] (Nat.zero_le _)
    have hb' : (writeBytes (⟨buf, 0⟩ : Cursor)
        [(2 + (utf16 (d.strings.get ⟨i, hi⟩)).length * 2 % 256) % 256, 3]).buf.length
        = buf.length := hb
    have hpos : (writeBytes (⟨buf, 0⟩ : Cursor)
        [(2 + (utf16 (d.strings.get ⟨i, hi⟩)).length * 2 % 256) % 256, 3]).pos = 2 := by
      rw [writeBytes_of_le buf 0 _ (by simp only [List.length_cons, List.length_nil]; omega)]
      simp
    rw [hb', hpos]
    omega
  rw [hw1]
  show writeAll
      (writeBytes ⟨buf, 0⟩
        [(2 + (utf16 (d.strings.get ⟨i, hi⟩)).length * 2 % 256) % 256, 3])
      (utf16le (d.strings.get ⟨i, hi⟩)) = _
  rw [hw2,
    writeBytes_writeBytes buf
      [(2 + (utf16 (d.strings.get ⟨i, hi⟩)).length * 2 % 256) % 256, 3]
      (utf16le (d.strings.get ⟨i, hi⟩))
      (by simp only [List.length_cons, List.length_nil]; omega)]
  norm_num

/-- C6: a String GetDescriptor with index 0 and language 0 writes the 4-byte
language descriptor `{4, DT_String, 0x0409 LE}`; with index 1 ≤ i ≤ 5 and
language 0x0409 it writes the UTF-16LE encoding of the i-th table string
prefixed with the two bytes `{2 + 2·len, DT_String}`. -/
theorem C6_string_descriptors (i : Nat) (buf : List Nat)
    (h1 : 1 ≤ i) (h5 : i ≤ 5)
    (hi : i < Device.new.strings.length)
    (hlang : 4 ≤ buf.length)
    (hroom : 2 + (utf16le (Device.new.strings.get ⟨i, hi⟩)).length ≤ buf.length) :
    Device.ep0_dev2host Device.new
        ⟨.DeviceToHost, .Standard, .Device, 6, 0x0300, 0, 255⟩ buf
      = .ok ([4, 3, 9, 4] ++ buf.drop 4)
    ∧ Device.ep0_dev2host Device.new
        ⟨.DeviceToHost, .Standard, .Device, 6, 0x0300 + i, 0x0409, 255⟩ buf
      = .ok ([(2 + (utf16 (Device.new.strings.get ⟨i, hi⟩)).length * 2 % 256) % 256, 3]
             ++ utf16le (Device.new.strings.get ⟨i, hi⟩)
             ++ buf.drop (2 + (utf16le (Device.new.strings.get ⟨i, hi⟩)).length)) := by
  constructor
  · show Out.ok ((writeBytes (⟨buf, 0⟩ : Cursor) [4, 3, 9, 4]).buf) = _
    rw [writeBytes_of_le buf 0 [4, 3, 9, 4]
      (by simp only [List.length_cons, List.length_nil]; omega)]
    simp
  · have hidx : (768 + i) % 256 = i := by omega
    have hty : (768 + i) / 256 % 256 = 3 := by omega
    show Device.get_descriptor Device.new
        ⟨.DeviceToHost, .Standard, .Device, 6, 768 + i, 1033, 255⟩ buf = _
    unfold Device.get_descriptor
    simp only [hidx, hty, LANG_ID_EN_US]
    norm_num
    rw [get_string_descriptor_ok Device.new i buf h1 hi hroom]
    simp [Nat.add_mod_mod]

set_option maxRecDepth 8000 in
/-- C6 witness: the theorem applied at index 2 ("Softproduct", 11 UTF-16
units) with a 64-byte buffer. -/
theorem C6_string_descriptors_witness :
    ((1:Nat) ≤ 2 ∧ (2:Nat) ≤ 5 ∧ (4:Nat) ≤ (List.replicate 64 (0:Nat)).length
      ∧ 2 + (utf16le "Softproduct").length ≤ (List.replicate 64 (0:Nat)).length)
    ∧ Device.ep0_dev2host Device.new
        ⟨.DeviceToHost, .Standard, .Device, 6, 0x0300, 0, 255⟩ (List.replicate 64 0)
      = .ok ([4, 3, 9, 4] ++ (List.replicate 64 (0:Nat)).drop 4)
    ∧ Device.ep0_dev2host Device.new
        ⟨.DeviceToHost, .Standard, .Device, 6, 0x0302, 0x0409, 255⟩ (List.replicate 64 0)
      = .ok ([24, 3] ++ utf16le "Softproduct" ++ (List.replicate 64 (0:Nat)).drop 24) := by
  refine ⟨⟨by decide, by decide, by decide, by decide⟩, ?_, ?_⟩
  · exact (C6_string_descriptors 2 (List.replicate 64 0) (by decide) (by decide)
      (by decide) (by decide) (by decide)).1
  · exact (C6_string_descriptors 2 (List.replicate 64 0) (by decide) (by decide)
      (by decide) (by decide) (by decide)).2

set_option maxRecDepth 8000 in
/-- C7: the HID report descriptor built in `Device::new` is the fixed item
sequence for usage page 0xF1D0 / usage 0x01 with one 64-byte input and one
64-byte output report; the HID descriptor's `wReportDescriptorLength` equals
its length; and an interface GetDescriptor with `wValue` high byte
`HID_DT_REPORT` writes exactly those bytes verbatim. -/
theorem C7_hid_report_descriptor (buf : List Nat)
    (h : Device.new.hid_report_descriptor.length ≤ buf.length) :
    Device.new.hid_report_descriptor
      = usage_page FIDO ++ usage CTAPHID_USAGE ++ collection APPLICATION
        ++ usage FIDO_USAGE_DATA_IN ++ logical_minimum 0 ++ logical_maximum 0xff
        ++ report_size 8 ++ report_count 64
        ++ hidInput (HID_DATA ||| HID_VARIABLE ||| HID_ABSOLUTE)
        ++ usage FIDO_USAGE_DATA_OUT ++ logical_minimum 0 ++ logical_maximum 0xff
        ++ report_size 8 ++ report_count 64
        ++ hidOutput (HID_DATA ||| HID_VARIABLE ||| HID_ABSOLUTE)
        ++ end_collection
    ∧ Device.new.hid_report_descriptor
      = [0x06, 0xd0, 0xf1, 0x09, 0x01, 0xa1, 0x01, 0x09, 0x20, 0x15, 0x00, 0x26, 0xff,
         0x00, 0x75, 0x08, 0x95, 0x40, 0x81, 0x02, 0x09, 0x21, 0x15, 0x00, 0x26, 0xff,
         0x00, 0x75, 0x08, 0x95, 0x40, 0x91, 0x02, 0xc0]
    ∧ Device.new.hid_descriptor.wReportDescriptorLength
      = Device.new.hid_report_descriptor.length
    ∧ Device.ep0_dev2host Device.new
        ⟨.DeviceToHost, .Standard, .Interface, 6, 0x2200, 0, 0xff⟩ buf
      = .ok (Device.new.hid_report_descriptor
             ++ buf.drop Device.new.hid_report_descriptor.length) := by
  refine ⟨by decide, by decide, by decide, ?_⟩
  have hred : Device.ep0_dev2host Device.new
      ⟨.DeviceToHost, .Standard, .Interface, 6, 0x2200, 0, 0xff⟩ buf
      = if Device.new.hid_report_descriptor.length ≤ buf.length then
          .ok (Device.new.hid_report_descriptor
               ++ buf.drop Device.new.hid_report_descriptor.length)
        else .ioErr := rfl
  rw [hred, if_pos h]

set_option maxRecDepth 8000 in
/-- C7 witness: the theorem applied to a 64-byte buffer. -/
theorem C7_hid_report_descriptor_witness :
    Device.new.hid_report_descriptor.length ≤ (List.replicate 64 (0:Nat)).length
    ∧ Device.ep0_dev2host Device.new
        ⟨.DeviceToHost, .Standard, .Interface, 6, 0x2200, 0, 0xff⟩ (List.replicate 64 0)
      = .ok (Device.new.hid_report_descriptor
             ++ (List.replicate 64 (0:Nat)).drop Device.new.hid_report_descriptor.length) :=
  ⟨by decide, (C7_hid_report_descriptor (List.replicate 64 0) (by decide)).2.2.2⟩

/-- C5: `ep1_dev2host` first parses every packet queued in the receive queue;
then, if the resulting send queue is non-empty, it removes exactly one frame,
writes it into the URB transfer buffer and returns `Ok(true)`; if the send
queue is empty it returns `Ok(false)` — completing the URB with zero length
instead of parking it. -/
theorem C5_ep1_dev2host
    (dispatch : List Nat → List (List Nat) → Out (List (List Nat)))
    (d : Device) (buf : List Nat) (sq : List (List Nat))
    (h : ep1_drain dispatch d.parser.recv_queue d.parser.send_queue = .ok sq) :
    (sq = [] →
      d.ep1_dev2host dispatch buf
        = .ok (false, { d with parser := { recv_queue := [], send_queue := [] } }, buf))
    ∧ ∀ f rest, sq = f :: rest → f.length ≤ buf.length →
        d.ep1_dev2host dispatch buf
          = .ok (true, { d with parser := { recv_queue := [], send_queue := rest } },
                 f ++ buf.drop f.length) := by
  constructor
  · intro hsq
    unfold Device.ep1_dev2host
    rw [h, hsq]
  · intro f rest hsq hfit
    unfold Device.ep1_dev2host
    rw [h, hsq]
    simp [Parser.unparse, hfit]

/-- C5 witness: the theorem applied to the echo dispatch, a device with one
pending receive packet, and a 64-byte buffer. -/
theorem C5_ep1_dev2host_witness :
    ep1_drain echoDispatch pendingDev.parser.recv_queue pendingDev.parser.send_queue
      = .ok [[7, 8]]
    ∧ Device.ep1_dev2host echoDispatch pendingDev (List.replicate 64 0)
      = .ok (true, { pendingDev with parser := { recv_queue := [], send_queue := [] } },
             [7, 8] ++ (List.replicate 64 (0:Nat)).drop 2) :=
  ⟨by decide,
    (C5_ep1_dev2host echoDispatch pendingDev (List.replicate 64 0) [[7, 8]]
        (by decide)).2 [7, 8] [] rfl (by decide)⟩
